import Mathlib

/-!
QuizApp backend: the quiz and result controllers

A shallow embedding of `backend/controllers/quizController.js` and
`backend/controllers/ResultController.js`.

* Request fields that carry JSON strings are `Option String`; `none` is the
  JavaScript `undefined` of a field that is not in the request.
* Numeric request fields are `Option Int`: the integer written in the JSON body, or
  `undefined`.  `JSON.parse` turns it into the nearest binary64 number (`toNum`), and
  the handler computes with that (`Num`).
* The document store is an explicit state (`State`) passed through each handler;
  a handler returns the HTTP response together with the state it leaves behind.
* `Math.round((correct / totalQuestions) * 100)` is evaluated on IEEE-754 binary64
  values (`F64`), each operation rounded to nearest, ties to even, as JavaScript does.
* The Mongoose models (`models/quizModel.js`, `models/resultModel.js`) are not part
  of the sources; what they and the mongoose package decide (schema validation on
  save, generated ids, the creation timestamp, which strings the `ObjectId`
  constructor accepts) is supplied by `Env`.
-/

namespace QuizApp

/-! ## JavaScript values -/

/-- JavaScript truthiness of an optional string: `undefined` and `""` are falsy. -/
def truthy : Option String → Bool
  | none => false
  | some s => s != ""

/-- The JavaScript `a || b` on optional strings. -/
def orElse (a b : Option String) : Option String :=
  if truthy a then a else b

/-- The JavaScript `a || d` with a string literal `d` on the right. -/
def orDefault (a : Option String) (d : String) : String :=
  match a with
  | some s => if s != "" then s else d
  | none => d

/-- White space and line terminators removed by `String.prototype.trim`. -/
def isJSWhiteSpace (c : Char) : Bool :=
  let n := c.toNat
  n = 0x09 || n = 0x0A || n = 0x0B || n = 0x0C || n = 0x0D || n = 0x20 || n = 0xA0 ||
  n = 0x1680 || (0x2000 ≤ n && n ≤ 0x200A) || n = 0x2028 || n = 0x2029 || n = 0x202F ||
  n = 0x205F || n = 0x3000 || n = 0xFEFF

/-- The method `String.prototype.trim`. -/
def jsTrim (s : String) : String :=
  String.mk ((s.data.dropWhile isJSWhiteSpace).reverse.dropWhile isJSWhiteSpace).reverse

/-! ## IEEE-754 binary64 arithmetic on the values the score computation meets -/

/-- A non-negative binary64 value: `fin m e` is `m * 2 ^ e`.  Exponent range limits
(subnormals, overflow) are not modelled; the operands here are array lengths, below
`2 ^ 32`, and every intermediate value lies between `2 ^ (-32)` and `2 ^ 39`. -/
inductive F64 where
  | nan
  | inf
  | fin (m : Nat) (e : Int)
deriving DecidableEq, Repr

/-- The loop behind `floorLog2`: halve `n` until it is below 2, at most `fuel` times. -/
def floorLog2Aux : Nat → Nat → Nat
  | 0, _ => 0
  | fuel + 1, n => if n < 2 then 0 else floorLog2Aux fuel (n / 2) + 1

/-- Position of the leading bit of `n` (`0` for `n < 2`). -/
def floorLog2 (n : Nat) : Nat := floorLog2Aux n n

/-- The natural `n * 2 ^ max e 0`.  A value `n * 2 ^ e` is the fraction
`timesPow2 n e / timesPow2 1 (-e)`. -/
def timesPow2 (n : Nat) (e : Int) : Nat := n * 2 ^ e.toNat

/-- The binary64 value nearest to `num / den` (`den > 0`), ties to the even
significand.  The exponent `e` is chosen so that `num / den / 2 ^ e` lies in
`[2 ^ 52, 2 ^ 53)`; the result `fin m e` has `m` the nearest integer to it. -/
def roundNearestEven (num den : Nat) : F64 :=
  if num = 0 then F64.fin 0 0 else
  let e0 : Int := (floorLog2 num : Int) - (floorLog2 den : Int) - 52
  let e : Int := if timesPow2 num (-e0) / timesPow2 den e0 < 2 ^ 52 then e0 - 1 else e0
  let n := timesPow2 num (-e)
  let d := timesPow2 den e
  let q := n / d
  let r := n % d
  if d < 2 * r ∨ (2 * r = d ∧ q % 2 = 1) then F64.fin (q + 1) e else F64.fin q e

/-- The JavaScript `a / b` on two non-negative integers. -/
def numDiv (a b : Nat) : F64 :=
  if b = 0 then (if a = 0 then F64.nan else F64.inf) else roundNearestEven a b

/-- The JavaScript `x * k` for a non-negative integer `k`. -/
def F64.mulNat : F64 → Nat → F64
  | F64.nan, _ => F64.nan
  | F64.inf, k => if k = 0 then F64.nan else F64.inf
  | F64.fin m e, k => roundNearestEven (timesPow2 (m * k) e) (timesPow2 1 (-e))

/-- The function `Math.round`: the integer nearest to `x`, a tie going to `+∞`,
that is `⌊x + 1/2⌋` computed exactly.  An integer result is `fin k 0`. -/
def mathRound : F64 → F64
  | F64.nan => F64.nan
  | F64.inf => F64.inf
  | F64.fin m e => F64.fin ((2 * timesPow2 m e + timesPow2 1 (-e)) / (2 * timesPow2 1 (-e))) 0

/-- The expression `Math.round((correct / totalQuestions) * 100)` of `submitQuiz`. -/
def jsScore (correct totalQuestions : Nat) : F64 :=
  mathRound ((numDiv correct totalQuestions).mulNat 100)

/-- The score as the specification words it: `correct / totalQuestions * 100` as an
exact fraction, rounded to the nearest integer with halves going up. -/
def specScore (correct totalQuestions : Nat) : Nat :=
  (2 * (100 * correct) + totalQuestions) / (2 * totalQuestions)

/-! ## Integer-valued binary64 numbers: the counts of `createResult` -/

/-- A binary64 number whose value is an integer, an infinity or NaN: what `JSON.parse`
makes of an integer literal, and what differences and `Math.max` of such numbers
give. -/
inductive Num where
  | nan
  | posInf
  | negInf
  | int (z : Int)
deriving DecidableEq, Repr

/-- The natural nearest to `n` among those with at most 53 significant bits, ties to
the even significand. -/
def roundInteger (n : Nat) : Nat :=
  let e := floorLog2 n - 52
  let q := n / 2 ^ e
  let r := n % 2 ^ e
  if 2 ^ e < 2 * r ∨ (2 * r = 2 ^ e ∧ q % 2 = 1) then (q + 1) * 2 ^ e else q * 2 ^ e

/-- The binary64 number nearest to the integer `z`: `z` itself up to magnitude
`2 ^ 53`, a rounded integer beyond, an infinity when the rounded magnitude reaches
`2 ^ 1024`, that is when its leading bit is at position 1024 or above. -/
def toNum (z : Int) : Num :=
  let r := roundInteger z.natAbs
  if 1024 ≤ floorLog2 r then (if z < 0 then Num.negInf else Num.posInf)
  else Num.int (if z < 0 then -(r : Int) else (r : Int))

/-- The JavaScript `a - b`: the exact difference, rounded. -/
def Num.sub : Num → Num → Num
  | Num.int a, Num.int b => toNum (a - b)
  | Num.nan, _ => Num.nan
  | _, Num.nan => Num.nan
  | Num.posInf, Num.posInf => Num.nan
  | Num.negInf, Num.negInf => Num.nan
  | Num.posInf, _ => Num.posInf
  | Num.negInf, _ => Num.negInf
  | Num.int _, Num.posInf => Num.negInf
  | Num.int _, Num.negInf => Num.posInf

/-- The JavaScript `Math.max(0, x)`. -/
def Num.maxZero : Num → Num
  | Num.nan => Num.nan
  | Num.posInf => Num.posInf
  | Num.negInf => Num.int 0
  | Num.int z => Num.int (max 0 z)

/-- The integer is at most `2 ^ 53` in magnitude, the range in which every integer is
a binary64 number. -/
def ExactInt (z : Int) : Prop := -(2 ^ 53) ≤ z ∧ z ≤ 2 ^ 53

instance (z : Int) : Decidable (ExactInt z) := by
  unfold ExactInt
  exact inferInstance

/-! ## Data model -/

structure Question where
  _id : String
  question : String
  options : List String
  correctAnswer : String
  explanation : Option String
deriving DecidableEq, Repr

structure Quiz where
  _id : String
  title : String
  technology : String
  level : String
  questions : List Question
  createdBy : Option String
  isActive : Bool
  totalAttempts : Nat
  createdAt : Nat
deriving DecidableEq, Repr

/-- A Result document.  `user` of a stored document is the hexadecimal string of the
ObjectId it refers to.  `score` is `none` when the field is absent, as on documents
written by `createResult`. -/
structure ResultDoc where
  user : String
  title : String
  technology : String
  level : String
  totalQuestions : Num
  correct : Num
  wrong : Num
  score : Option F64
  createdAt : Nat
deriving DecidableEq, Repr

/-- The document store. -/
structure State where
  quizzes : List Quiz
  results : List ResultDoc
deriving DecidableEq, Repr

/-- What the Mongoose layer decides: the ObjectIds it generates (`newId 0` for a new
document, `newId (i + 1)` for its `i`-th embedded question), the clock behind
`createdAt`, whether schema validation lets a new document be saved, and the
constructor `mongoose.Types.ObjectId` on a string: `objectId s` is the hexadecimal
string of the ObjectId made from `s`, or `none` when the constructor throws. -/
structure Env where
  now : Nat
  newId : Nat → String
  quizValid : Quiz → Bool
  resultValid : ResultDoc → Bool
  objectId : String → Option String

/-- The caller identity `req.user` put on the request by the authentication
middleware. -/
structure ReqUser where
  _id : Option String
deriving DecidableEq, Repr

/-- The expression `req.user?._id`. -/
def callerId (user : Option ReqUser) : Option String :=
  user.bind (fun u => u._id)

/-! ## Responses -/

/-- One entry of `detailedResults`.  `isCorrect` is `none` when the JavaScript value
is `undefined`. -/
structure Detail where
  questionId : String
  question : String
  userAnswer : String
  correctAnswer : String
  isCorrect : Option Bool
  explanation : Option String
deriving DecidableEq, Repr

/-- The `results` object of a `submitQuiz` response. -/
structure Scored where
  quizTitle : String
  technology : String
  level : String
  totalQuestions : Nat
  correct : Nat
  wrong : Nat
  score : F64
  detailedResults : List Detail
deriving DecidableEq, Repr

/-- Body of a response next to its `success` flag.  The `error` detail string of a
500 response is the message of the exception caught and is not modelled. -/
inductive Payload where
  | message (text : String)
  | quiz (text : String) (quiz : Quiz)
  | scored (results : Scored)
  | result (text : String) (result : ResultDoc)
  | results (items : List ResultDoc)
deriving DecidableEq, Repr

structure Response where
  status : Nat
  success : Bool
  payload : Payload
deriving DecidableEq, Repr

/-- A failure response `res.status(code).json(\x7b success: false, message \x7d)`. -/
def failure (code : Nat) (text : String) : Response :=
  { status := code, success := false, payload := Payload.message text }

/-! ## quizController.js: createQuiz -/

/-- One element of `req.body.questions`. -/
structure QuestionInput where
  question : Option String
  options : Option (List String)
  correctAnswer : Option String
  explanation : Option String
deriving DecidableEq, Repr

structure CreateQuizReq where
  user : Option ReqUser
  title : Option String
  technology : Option String
  level : Option String
  questions : Option (List QuestionInput)
deriving DecidableEq, Repr

/-- The test `!q.question || !q.options || q.options.length < 2 || !q.correctAnswer`.
An array is truthy, so `!q.options` holds for a missing field only. -/
def invalidQuestion (q : QuestionInput) : Bool :=
  !truthy q.question || q.options.isNone || decide ((q.options.getD []).length < 2) ||
    !truthy q.correctAnswer

/-- The loop `for (let i = 0; i < questions.length; i++)` started at index `i`: the
index at which it returns, or `none` when it runs to the end. -/
def validateQuestions : List QuestionInput → Nat → Option Nat
  | [], _ => none
  | q :: qs, i => if invalidQuestion q then some i else validateQuestions qs (i + 1)

/-- The message of the per-question failure, `position` being `i + 1`. -/
def invalidQuestionMessage (position : Nat) : String :=
  "Question " ++ toString position ++
    " is invalid. Each question must have a question text, at least 2 options, and a correct answer"

/-- The embedded question documents of a new quiz, the first one numbered `i`. -/
def storeQuestions (env : Env) : List QuestionInput → Nat → List Question
  | [], _ => []
  | q :: qs, i =>
    { _id := env.newId (i + 1), question := q.question.getD "",
      options := q.options.getD [], correctAnswer := q.correctAnswer.getD "",
      explanation := q.explanation } :: storeQuestions env qs (i + 1)

/-- The handler `createQuiz`.  The new document gets `isActive = true` and
`totalAttempts = 0`, the defaults the data model gives. -/
def createQuiz (env : Env) (req : CreateQuizReq) (st : State) : Response × State :=
  if !truthy req.title || !truthy req.technology || !truthy req.level ||
      req.questions.isNone || (req.questions.getD []).length == 0 then
    (failure 400 "Please provide all required fields: title, technology, level, and questions", st)
  else
    match validateQuestions (req.questions.getD []) 0 with
    | some i => (failure 400 (invalidQuestionMessage (i + 1)), st)
    | none =>
      let quiz : Quiz :=
        { _id := env.newId 0, title := req.title.getD "", technology := req.technology.getD "",
          level := req.level.getD "", questions := storeQuestions env (req.questions.getD []) 0,
          createdBy := orElse (callerId req.user) none, isActive := true, totalAttempts := 0,
          createdAt := env.now }
      if env.quizValid quiz then
        ({ status := 201, success := true,
           payload := Payload.quiz "Quiz created successfully" quiz },
         { st with quizzes := st.quizzes ++ [quiz] })
      else
        (failure 500 "Error creating quiz", st)

/-! ## quizController.js: submitQuiz -/

/-- One element of `req.body.answers`. -/
structure Answer where
  questionId : Option String
  selectedAnswer : Option String
deriving DecidableEq, Repr

structure SubmitReq where
  id : String
  user : Option ReqUser
  answers : Option (List Answer)
  userId : Option String
deriving DecidableEq, Repr

/-- The variables `correct`, `wrong` and `results` of `submitQuiz`. -/
structure Tally where
  correct : Nat
  wrong : Nat
  results : List Detail
deriving DecidableEq, Repr

/-- The lookup `answers.find(a => a.questionId === question._id.toString())`. -/
def findAnswer (answers : List Answer) (question : Question) : Option Answer :=
  answers.find? (fun a => a.questionId == some question._id)

/-- The value `userAnswer && userAnswer.selectedAnswer === question.correctAnswer`:
`undefined` when `find` returned `undefined`. -/
def isCorrectOf (userAnswer : Option Answer) (question : Question) : Option Bool :=
  userAnswer.map (fun a => a.selectedAnswer == some question.correctAnswer)

/-- The record pushed on `results` for one question. -/
def detailOf (answers : List Answer) (question : Question) : Detail :=
  let userAnswer := findAnswer answers question
  { questionId := question._id,
    question := question.question,
    userAnswer := orDefault (userAnswer.bind (fun a => a.selectedAnswer)) "Not answered",
    correctAnswer := question.correctAnswer,
    isCorrect := isCorrectOf userAnswer question,
    explanation := question.explanation }

/-- The body of the `forEach` callback for one question. -/
def gradeQuestion (answers : List Answer) (question : Question) (t : Tally) : Tally :=
  let isCorrect := isCorrectOf (findAnswer answers question) question
  let t1 : Tally :=
    if isCorrect = some true then { t with correct := t.correct + 1 }
    else { t with wrong := t.wrong + 1 }
  { t1 with results := t1.results ++ [detailOf answers question] }

/-- The loop `quiz.questions.forEach(...)`.  With `answers` undefined the callback
throws a `TypeError` on `answers.find` at the first question (`none`). -/
def forEachQuestion : List Question → Option (List Answer) → Tally → Option Tally
  | [], _, t => some t
  | _ :: _, none, _ => none
  | q :: qs, some answers, t => forEachQuestion qs (some answers) (gradeQuestion answers q t)

/-- The call `Quiz.findById(id)`. -/
def findQuizById (st : State) (id : String) : Option Quiz :=
  st.quizzes.find? (fun q => q._id == id)

/-- The call `quiz.save()` on a document loaded from the store. -/
def saveQuiz (st : State) (quiz : Quiz) : State :=
  { st with quizzes := st.quizzes.map (fun q => if q._id == quiz._id then quiz else q) }

/-- What saving a new Result document stores: the reference `user` is cast to an
ObjectId and the schema validates the document; `none` when the cast or the
validation fails and the save throws. -/
def resultToStore (env : Env) (doc : ResultDoc) : Option ResultDoc :=
  match env.objectId doc.user with
  | none => none
  | some oid =>
    if env.resultValid { doc with user := oid } then some { doc with user := oid } else none

/-- The `try` block around `resultDoc.save()`: a rejected document is dropped. -/
def saveResultBestEffort (env : Env) (st : State) (doc : ResultDoc) : State :=
  match resultToStore env doc with
  | some stored => { st with results := st.results ++ [stored] }
  | none => st

/-- The handler `submitQuiz`. -/
def submitQuiz (env : Env) (req : SubmitReq) (st : State) : Response × State :=
  match findQuizById st req.id with
  | none => (failure 404 "Quiz not found", st)
  | some found =>
    let quiz : Quiz := { found with totalAttempts := found.totalAttempts + 1 }
    let st1 := saveQuiz st quiz
    match forEachQuestion quiz.questions req.answers { correct := 0, wrong := 0, results := [] } with
    | none => (failure 500 "Error submitting quiz", st1)
    | some t =>
      let totalQuestions := quiz.questions.length
      let score := jsScore t.correct totalQuestions
      let userId := orElse (callerId req.user) req.userId
      let st2 :=
        if truthy userId then
          saveResultBestEffort env st1
            { user := userId.getD "", title := quiz.title, technology := quiz.technology,
              level := quiz.level, totalQuestions := Num.int (Int.ofNat totalQuestions),
              correct := Num.int (Int.ofNat t.correct), wrong := Num.int (Int.ofNat t.wrong),
              score := some score, createdAt := env.now }
        else st1
      ({ status := 200, success := true,
         payload := Payload.scored
           { quizTitle := quiz.title, technology := quiz.technology, level := quiz.level,
             totalQuestions := totalQuestions, correct := t.correct, wrong := t.wrong,
             score := score, detailedResults := t.results } },
       st2)

/-! ## ResultController.js -/

structure CreateResultReq where
  user : Option ReqUser
  title : Option String
  technology : Option String
  level : Option String
  totalQuestions : Option Int
  correct : Option Int
  wrong : Option Int
deriving DecidableEq, Repr

/-- The test `!req.user || !req.user._id`. -/
def unauthorized (user : Option ReqUser) : Bool :=
  user.isNone || !truthy (callerId user)

/-- The constant `computeWrong`:
`wrong !== undefined ? Number(wrong) : Math.max(0, Number(totalQuestions) - Number(correct))`
on the integers written in the body. -/
def computeWrong (totalQuestions correct : Int) (wrong : Option Int) : Num :=
  match wrong with
  | some w => toNum w
  | none => Num.maxZero (Num.sub (toNum totalQuestions) (toNum correct))

/-- The object `payload` handed to `Result.create`.  It is built after the
`undefined` checks, so `totalQuestions` and `correct` are present. -/
def resultPayload (env : Env) (req : CreateResultReq) : ResultDoc :=
  { user := (callerId req.user).getD "",
    title := jsTrim (req.title.getD ""),
    technology := req.technology.getD "",
    level := req.level.getD "",
    totalQuestions := toNum (req.totalQuestions.getD 0),
    correct := toNum (req.correct.getD 0),
    wrong := computeWrong (req.totalQuestions.getD 0) (req.correct.getD 0) req.wrong,
    score := none,
    createdAt := env.now }

/-- The handler `createResult`. -/
def createResult (env : Env) (req : CreateResultReq) (st : State) : Response × State :=
  if unauthorized req.user then (failure 401 "Not authorized", st)
  else if !truthy req.technology || !truthy req.level || req.totalQuestions.isNone ||
      req.correct.isNone then
    (failure 400 "Missing fields", st)
  else if !truthy req.title then (failure 400 "Missing title", st)
  else
    match resultToStore env (resultPayload env req) with
    | some created =>
      ({ status := 201, success := true, payload := Payload.result "Result Created" created },
       { st with results := st.results ++ [created] })
    | none => (failure 500 "Server Error", st)

structure ListResultsReq where
  user : Option ReqUser
  technology : Option String
deriving DecidableEq, Repr

/-- The method `String.prototype.toLowerCase` on the letters `A`-`Z`.  JavaScript
lowers every cased character; no character outside `A`-`Z` has `a` or `l` in its
lower case, so the comparison with `'all'` below comes out the same. -/
def toLowerCase (s : String) : String :=
  String.mk (s.data.map Char.toLower)

/-- The test `technology && technology.toLowerCase() != 'all'`. -/
def technologyFilterOn (technology : Option String) : Bool :=
  truthy technology && toLowerCase (technology.getD "") != "all"

/-- The object `query` as a predicate on stored documents, `user` being the ObjectId
made from `req.user._id`. -/
def resultQuery (user : String) (technology : Option String) (r : ResultDoc) : Bool :=
  r.user == user &&
    (if technologyFilterOn technology then r.technology == technology.getD "" else true)

/-- The order of `.sort(\x7b createdAt: -1 \x7d)`. -/
def newerFirst (a b : ResultDoc) : Prop := b.createdAt ≤ a.createdAt

instance : DecidableRel newerFirst := fun a b => Nat.decLe b.createdAt a.createdAt

/-- The handler `listResults`; it leaves the store untouched.  When the constructor
`new mongoose.Types.ObjectId(req.user._id)` throws, the `catch` answers 500. -/
def listResults (env : Env) (req : ListResultsReq) (st : State) : Response :=
  if unauthorized req.user then failure 401 "Not authorized"
  else
    match env.objectId ((callerId req.user).getD "") with
    | none => failure 500 "Server Error"
    | some user =>
      { status := 200, success := true,
        payload := Payload.results
          ((st.results.filter (resultQuery user req.technology)).insertionSort newerFirst) }

/-! ## Test data -/

/-- A question whose id and correct answer are given, with options `A` to `D`. -/
def mkQuestion (id correctAnswer : String) : Question :=
  { _id := id, question := "What is it?", options := ["A", "B", "C", "D"],
    correctAnswer := correctAnswer, explanation := none }

/-- A stored quiz with the given id and questions. -/
def mkQuiz (id : String) (questions : List Question) : Quiz :=
  { _id := id, title := "Basics", technology := "React", level := "basic",
    questions := questions, createdBy := none, isActive := true, totalAttempts := 0,
    createdAt := 1 }

/-- A hexadecimal digit. -/
def isHexDigit (c : Char) : Bool :=
  c.isDigit || (decide (97 ≤ c.toNat) && decide (c.toNat ≤ 102)) ||
    (decide (65 ≤ c.toNat) && decide (c.toNat ≤ 70))

/-- The ObjectId constructor on strings of 24 hexadecimal digits, which gives the
ObjectId printed as the same digits in lower case; every other string is taken to be
rejected. -/
def hexObjectId (s : String) : Option String :=
  if s.data.length = 24 ∧ s.data.all isHexDigit = true then some (toLowerCase s) else none

/-- An environment whose schema validation accepts every document. -/
def acceptAll : Env :=
  { now := 7, newId := fun i => "id" ++ toString i, quizValid := fun _ => true,
    resultValid := fun _ => true, objectId := hexObjectId }

/-- An environment whose schema validation rejects every document. -/
def rejectAll : Env :=
  { now := 7, newId := fun i => "id" ++ toString i, quizValid := fun _ => false,
    resultValid := fun _ => false, objectId := hexObjectId }

/-- The id of the first user, written with upper-case digits. -/
def userOne : String := "64B7F0C2A1D3E4F5A6B7C8D9"

/-- The ObjectId of the first user as the store prints it. -/
def userOneId : String := "64b7f0c2a1d3e4f5a6b7c8d9"

/-- The ObjectId of a second user. -/
def userTwoId : String := "64b7f0c2a1d3e4f5a6b7c8da"

/-- The caller identity of the first user. -/
def caller : Option ReqUser := some { _id := some userOne }


/-- A store holding the quizzes given and no result. -/
def storeOf (quizzes : List Quiz) : State :=
  { quizzes := quizzes, results := [] }

/-- An anonymous submission of `answers` to the quiz `id`. -/
def submission (id : String) (answers : Option (List Answer)) : SubmitReq :=
  { id := id, user := none, answers := answers, userId := none }

/-- The quiz of the scenario: `Q1` with correct answer `A`, `Q2` with `B`. -/
def quizTwo : Quiz := mkQuiz "z2" [mkQuestion "Q1" "A", mkQuestion "Q2" "B"]

/-- A quiz with the single question `Q1`, correct answer `A`. -/
def quizOne : Quiz := mkQuiz "z1" [mkQuestion "Q1" "A"]

/-! ## Reading a response -/

/-- The `results` object of a response, when it carries one. -/
def scoredOf (r : Response) : Option Scored :=
  match r.payload with
  | Payload.scored s => some s
  | _ => none

/-- The `detailedResults` of a response (empty when it carries none). -/
def detailsOf (r : Response) : List Detail :=
  match scoredOf r with
  | some s => s.detailedResults
  | none => []

/-- The answer `a` is the first element of `answers` that carries the id of `q`. -/
def FirstAnswerFor (answers : List Answer) (q : Question) (a : Answer) : Prop :=
  ∃ pre post, answers = pre ++ a :: post ∧ (∀ b ∈ pre, b.questionId ≠ some q._id) ∧
    a.questionId = some q._id

/-- A quiz of forty questions `q0` ... `q39`, each with correct answer `A`. -/
def quizForty : Quiz :=
  mkQuiz "z40" ((List.range 40).map (fun i => mkQuestion ("q" ++ toString i) "A"))

/-- One answer per question of `quizForty`: `A` for the first twenty-three, `B` for
the other seventeen. -/
def answersTwentyThree : List Answer :=
  (List.range 40).map (fun i =>
    { questionId := some ("q" ++ toString i),
      selectedAnswer := some (if i < 23 then "A" else "B") })

/-- The quiz `quizOne` after three attempts. -/
def quizOneTried : Quiz := { quizOne with totalAttempts := 3 }

/-- The question lacks question text, has fewer than 2 options, or lacks a correct
answer; a missing `options` field counts as fewer than 2 options. -/
def Defective (q : QuestionInput) : Prop :=
  (q.question = none ∨ q.question = some "") ∨
    (q.options = none ∨ ∃ os, q.options = some os ∧ os.length < 2) ∨
    (q.correctAnswer = none ∨ q.correctAnswer = some "")

/-- A well-formed question of a `createQuiz` request. -/
def goodInput : QuestionInput :=
  { question := some "What is JSX?", options := some ["A", "B"], correctAnswer := some "A",
    explanation := none }

/-- A question of a `createQuiz` request with exactly one option. -/
def oneOptionInput : QuestionInput :=
  { question := some "What is a hook?", options := some ["A"], correctAnswer := some "A",
    explanation := none }

/-- An anonymous `createQuiz` request with the questions given. -/
def quizRequest (questions : List QuestionInput) : CreateQuizReq :=
  { user := none, title := some "Basics", technology := some "React", level := some "basic",
    questions := some questions }

/-- An authenticated `createResult` request for technology `React`, level `basic`. -/
def resultRequest (title : Option String) (totalQuestions correct wrong : Option Int) :
    CreateResultReq :=
  { user := caller, title := title, technology := some "React", level := some "basic",
    totalQuestions := totalQuestions, correct := correct, wrong := wrong }

/-- A stored result of `user` for `technology`, created at `createdAt`. -/
def mkResult (user technology : String) (createdAt : Nat) : ResultDoc :=
  { user := user, title := "Basics", technology := technology, level := "basic",
    totalQuestions := Num.int 10, correct := Num.int 7, wrong := Num.int 3, score := none,
    createdAt := createdAt }

/-- A store with two results of the first user and one of the second. -/
def resultStore : State :=
  { quizzes := [],
    results := [mkResult userOneId "React" 1, mkResult userTwoId "React" 2,
      mkResult userOneId "Node" 3] }

/-- The eight spellings of `all` in upper-case and lower-case letters. -/
def allSpellings : List String :=
  ["all", "All", "aLl", "alL", "ALl", "AlL", "aLL", "ALL"]

instance : IsTotal ResultDoc newerFirst := ⟨fun a b => Nat.le_total b.createdAt a.createdAt⟩

instance : IsTrans ResultDoc newerFirst :=
  ⟨fun _ _ _ hab hbc => Nat.le_trans hbc hab⟩

/-! ## Lemmas on integer-valued numbers -/

theorem floorLog2Aux_lt :
    ∀ (fuel n k : Nat), 0 < k → n < 2 ^ k → floorLog2Aux fuel n < k := by
  intro fuel
  induction fuel with
  | zero => intro n k hk _; simpa [floorLog2Aux] using hk
  | succ fuel ih =>
    intro n k hk hn
    unfold floorLog2Aux
    by_cases h2 : n < 2
    · simpa [h2] using hk
    · simp only [h2, if_false]
      obtain ⟨j, rfl⟩ : ∃ j, k = j + 1 := ⟨k - 1, by omega⟩
      have hj : 0 < j := by
        rcases Nat.eq_zero_or_pos j with rfl | hj
        · simp at hn; omega
        · exact hj
      have hhalf : n / 2 < 2 ^ j := by
        rw [pow_succ] at hn
        omega
      have := ih (n / 2) j hj hhalf
      omega

/-- Integers up to `2 ^ 53` are binary64 numbers. -/
theorem roundInteger_exact (n : Nat) (h : n ≤ 2 ^ 53) : roundInteger n = n := by
  rcases Nat.lt_or_ge n (2 ^ 53) with hlt | hge
  · have hlog : floorLog2 n - 52 = 0 := by
      have := floorLog2Aux_lt n n 53 (by norm_num) hlt
      unfold floorLog2
      omega
    unfold roundInteger
    simp [hlog, Nat.mod_one]
  · have : n = 2 ^ 53 := Nat.le_antisymm h hge
    subst this
    decide

theorem toNum_exact (z : Int) (h : ExactInt z) : toNum z = Num.int z := by
  obtain ⟨h1, h2⟩ := h
  have hn : z.natAbs ≤ 2 ^ 53 := by omega
  unfold toNum
  rw [roundInteger_exact _ hn]
  have hsmall : ¬ (1024 ≤ floorLog2 z.natAbs) := by
    have hlt : z.natAbs < 2 ^ 54 := by omega
    have := floorLog2Aux_lt z.natAbs z.natAbs 54 (by norm_num) hlt
    unfold floorLog2
    omega
  simp only [hsmall, if_false]
  congr 1
  by_cases hz : z < 0
  · simp only [hz, if_true]; omega
  · simp only [hz, if_false]; omega

/-- Inside the exact range `Math.max(0, a - b)` is the integer `max 0 (a - b)`. -/
theorem maxZero_sub_exact (a b : Int) (ha : ExactInt a) (hb : ExactInt b)
    (hab : ExactInt (a - b)) :
    Num.maxZero (Num.sub (toNum a) (toNum b)) = Num.int (max 0 (a - b)) := by
  rw [toNum_exact a ha, toNum_exact b hb]
  simp only [Num.sub]
  rw [toNum_exact _ hab]
  rfl

/-! ## Lemmas on letter case -/

theorem toLower_eq_a (c : Char) (h : c.toLower = 'a') : c = 'a' ∨ c = 'A' := by
  by_cases hr : c.toNat ≥ 65 ∧ c.toNat ≤ 90
  · right
    have hc : c = Char.ofNat c.toNat := (Char.ofNat_toNat c).symm
    have h1 : Char.ofNat (c.toNat + 32) = 'a' := by simpa [Char.toLower, hr] using h
    generalize c.toNat = n at hr hc h1
    obtain ⟨hlo, hhi⟩ := hr
    subst hc
    interval_cases n <;> first | rfl | exact absurd h1 (by decide)
  · left
    simpa [Char.toLower, hr] using h

theorem toLower_eq_l (c : Char) (h : c.toLower = 'l') : c = 'l' ∨ c = 'L' := by
  by_cases hr : c.toNat ≥ 65 ∧ c.toNat ≤ 90
  · right
    have hc : c = Char.ofNat c.toNat := (Char.ofNat_toNat c).symm
    have h1 : Char.ofNat (c.toNat + 32) = 'l' := by simpa [Char.toLower, hr] using h
    generalize c.toNat = n at hr hc h1
    obtain ⟨hlo, hhi⟩ := hr
    subst hc
    interval_cases n <;> first | rfl | exact absurd h1 (by decide)
  · left
    simpa [Char.toLower, hr] using h

/-- The strings that `toLowerCase` sends to `all` are its eight spellings. -/
theorem toLowerCase_eq_all_iff (t : String) : toLowerCase t = "all" ↔ t ∈ allSpellings := by
  constructor
  · intro h
    have hd : t.data.map Char.toLower = ['a', 'l', 'l'] := congrArg String.data h
    obtain ⟨cs⟩ := t
    rcases cs with _ | ⟨c1, _ | ⟨c2, _ | ⟨c3, _ | ⟨c4, rest⟩⟩⟩⟩
    · simp at hd
    · simp at hd
    · simp at hd
    · simp only [List.map_cons, List.map_nil, List.cons.injEq, and_true] at hd
      obtain ⟨h1, h2, h3⟩ := hd
      rcases toLower_eq_a c1 h1 with rfl | rfl <;>
        rcases toLower_eq_l c2 h2 with rfl | rfl <;>
        rcases toLower_eq_l c3 h3 with rfl | rfl <;> decide
    · simp at hd
  · intro h
    simp only [allSpellings, List.mem_cons, List.mem_singleton, List.mem_nil_iff,
      or_false] at h
    rcases h with rfl | rfl | rfl | rfl | rfl | rfl | rfl | rfl <;> decide

/-! ## Lemmas on the grading loop -/

theorem findAnswer_eq_some_iff (answers : List Answer) (q : Question) (a : Answer) :
    findAnswer answers q = some a ↔ FirstAnswerFor answers q a := by
  unfold findAnswer FirstAnswerFor
  rw [List.find?_eq_some]
  constructor
  · rintro ⟨hp, pre, post, rfl, hpre⟩
    refine ⟨pre, post, rfl, ?_, by simpa using hp⟩
    intro b hb
    simpa using hpre b hb
  · rintro ⟨pre, post, rfl, hpre, hp⟩
    refine ⟨by simpa using hp, pre, post, rfl, ?_⟩
    intro b hb
    simpa using hpre b hb

theorem findAnswer_eq_none_iff (answers : List Answer) (q : Question) :
    findAnswer answers q = none ↔ ∀ a ∈ answers, a.questionId ≠ some q._id := by
  unfold findAnswer
  simp [List.find?_eq_none]

/-- The tally `forEach` leaves after grading `qs` against a defined answer list. -/
theorem forEachQuestion_some (answers : List Answer) :
    ∀ (qs : List Question) (t : Tally),
      forEachQuestion qs (some answers) t = some
        { correct := t.correct + qs.countP (fun q => (detailOf answers q).isCorrect == some true),
          wrong := t.wrong + qs.countP (fun q => (detailOf answers q).isCorrect != some true),
          results := t.results ++ qs.map (detailOf answers) } := by
  intro qs
  induction qs with
  | nil => intro t; simp [forEachQuestion]
  | cons q qs ih =>
    intro t
    rw [forEachQuestion, ih]
    by_cases h : isCorrectOf (findAnswer answers q) q = some true
    · simp [gradeQuestion, detailOf, h, List.countP_cons]
      omega
    · simp [gradeQuestion, detailOf, h, List.countP_cons]
      omega

/-- The response of `submitQuiz` for a stored quiz and a defined answer list. -/
theorem submitQuiz_response (env : Env) (st : State) (req : SubmitReq) (quiz : Quiz)
    (answers : List Answer) (hq : findQuizById st req.id = some quiz)
    (ha : req.answers = some answers) :
    (submitQuiz env req st).1 =
      { status := 200, success := true,
        payload := Payload.scored
          { quizTitle := quiz.title, technology := quiz.technology, level := quiz.level,
            totalQuestions := quiz.questions.length,
            correct := quiz.questions.countP (fun q => (detailOf answers q).isCorrect == some true),
            wrong := quiz.questions.countP (fun q => (detailOf answers q).isCorrect != some true),
            score := jsScore
              (quiz.questions.countP (fun q => (detailOf answers q).isCorrect == some true))
              quiz.questions.length,
            detailedResults := quiz.questions.map (detailOf answers) } } := by
  unfold submitQuiz
  simp [hq, ha, forEachQuestion_some]

/-! ## submitQuiz: the score -/

/-- C1 (code defect, evaluated).  On a forty-question quiz with twenty-three answers
correct, `submitQuiz` tallies `correct = 23` of `totalQuestions = 40` and returns
`score = 57`: the binary64 product `(23 / 40) * 100` is `8092405580431359 * 2 ^ (-47)`,
just below `57.5`.  The exact value `23 / 40 * 100 = 57.5` rounded half-up is `58`. -/
theorem submitQuiz_score_23_of_40 :
    (scoredOf (submitQuiz acceptAll (submission "z40" (some answersTwentyThree))
        (storeOf [quizForty])).1).map (fun s => (s.correct, s.totalQuestions, s.score))
      = some (23, 40, F64.fin 57 0) ∧
    (numDiv 23 40).mulNat 100 = F64.fin 8092405580431359 (-47) ∧
    2 * 8092405580431359 < 115 * 2 ^ 47 ∧
    specScore 23 40 = 58 := by
  decide

/-! ## submitQuiz: the attempt counter -/

theorem find?_map_replace (id : String) (quiz1 : Quiz) (h1 : quiz1._id = id) :
    ∀ (l : List Quiz) (quiz : Quiz), l.find? (fun q => q._id == id) = some quiz →
      (l.map (fun q => if q._id == id then quiz1 else q)).find? (fun q => q._id == id)
        = some quiz1 := by
  intro l
  induction l with
  | nil => intro quiz h; simp at h
  | cons x xs ih =>
    intro quiz h
    by_cases hx : x._id = id
    · simp [hx, h1]
    · have hb : (x._id == id) = false := by simpa using hx
      simp only [List.find?_cons, hb] at h
      simp only [List.map_cons, hb, Bool.false_eq_true, if_false, List.find?_cons]
      exact ih quiz h

theorem findQuizById_id (st : State) (id : String) (quiz : Quiz)
    (h : findQuizById st id = some quiz) : quiz._id = id := by
  unfold findQuizById at h
  simpa using List.find?_some h

/-- The quizzes `submitQuiz` leaves in the store when the quiz exists. -/
theorem submitQuiz_quizzes (env : Env) (st : State) (req : SubmitReq) (quiz : Quiz)
    (hq : findQuizById st req.id = some quiz) :
    (submitQuiz env req st).2.quizzes =
      st.quizzes.map (fun q =>
        if q._id == req.id then { quiz with totalAttempts := quiz.totalAttempts + 1 } else q) := by
  have hid := findQuizById_id st req.id quiz hq
  unfold submitQuiz
  simp only [hq]
  split
  · simp [saveQuiz, hid]
  · dsimp only
    split
    · unfold saveResultBestEffort
      split <;> simp [saveQuiz, hid]
    · simp [saveQuiz, hid]

/-- C7.  When `id` names a stored quiz, after `submitQuiz` the stored quiz under that
id is the same document with `totalAttempts` one higher, whatever the answers are
(also when they are missing and scoring fails with status 500), the store holds as
many quizzes as before, and every quiz with another id is unchanged in place. -/
theorem submitQuiz_totalAttempts (env : Env) (st : State) (req : SubmitReq) (quiz : Quiz)
    (hq : findQuizById st req.id = some quiz) :
    findQuizById (submitQuiz env req st).2 req.id
        = some { quiz with totalAttempts := quiz.totalAttempts + 1 } ∧
      (submitQuiz env req st).2.quizzes.length = st.quizzes.length ∧
      ∀ (i : Nat) (q : Quiz), st.quizzes[i]? = some q → q._id ≠ req.id →
        (submitQuiz env req st).2.quizzes[i]? = some q := by
  have hid := findQuizById_id st req.id quiz hq
  have hqs := submitQuiz_quizzes env st req quiz hq
  refine ⟨?_, by simp [hqs], ?_⟩
  · unfold findQuizById at hq ⊢
    rw [hqs]
    exact find?_map_replace req.id { quiz with totalAttempts := quiz.totalAttempts + 1 } hid
      st.quizzes quiz hq
  · intro i q hi hne
    rw [hqs]
    simp [List.getElem?_map, hi, hne]

/-- C7, at a store of two quizzes and a submission without `answers`: scoring fails
with status 500, `quizOneTried` goes from 3 to 4 attempts, `quizTwo` keeps its 0. -/
theorem submitQuiz_totalAttempts_witness :
    (submitQuiz acceptAll (submission "z1" none) (storeOf [quizTwo, quizOneTried])).1.status
        = 500 ∧
      quizOneTried.totalAttempts = 3 ∧
      findQuizById (submitQuiz acceptAll (submission "z1" none)
          (storeOf [quizTwo, quizOneTried])).2 "z1"
        = some { quizOneTried with totalAttempts := 4 } ∧
      (submitQuiz acceptAll (submission "z1" none)
          (storeOf [quizTwo, quizOneTried])).2.quizzes[0]? = some quizTwo :=
  ⟨by decide, rfl,
    (submitQuiz_totalAttempts acceptAll (storeOf [quizTwo, quizOneTried])
      (submission "z1" none) quizOneTried (by decide)).1,
    (submitQuiz_totalAttempts acceptAll (storeOf [quizTwo, quizOneTried])
      (submission "z1" none) quizOneTried (by decide)).2.2 0 quizTwo rfl (by decide)⟩

/-! ## submitQuiz: the per-question records -/

/-- C2 (as stated, refuted).  With answers `[(Q1, "B"), (Q1, "A")]` a submitted answer
that carries the id of `Q1` and selects its correct answer `"A"` exists, yet the
record of `Q1` has `isCorrect = false` and the question is counted wrong: `find`
stops at the first answer with the id.  With no answer for `Q1` the record has
`isCorrect` undefined, not `false`. -/
theorem submitQuiz_isCorrect_counterexample :
    (∃ a ∈ [(⟨some "Q1", some "B"⟩ : Answer), ⟨some "Q1", some "A"⟩],
        a.questionId = some "Q1" ∧ a.selectedAnswer = some "A") ∧
      (detailsOf (submitQuiz acceptAll
          (submission "z1" (some [⟨some "Q1", some "B"⟩, ⟨some "Q1", some "A"⟩]))
          (storeOf [quizOne])).1).map (fun d => (d.questionId, d.isCorrect))
        = [("Q1", some false)] ∧
      (scoredOf (submitQuiz acceptAll
          (submission "z1" (some [⟨some "Q1", some "B"⟩, ⟨some "Q1", some "A"⟩]))
          (storeOf [quizOne])).1).map (fun s => (s.correct, s.wrong)) = some (0, 1) ∧
      (detailsOf (submitQuiz acceptAll (submission "z1" (some []))
          (storeOf [quizOne])).1).map (fun d => (d.questionId, d.isCorrect))
        = [("Q1", none)] := by
  decide

/-- C2 (amended).  For a stored quiz and a submitted answer list, `submitQuiz` answers
200 with one record per question, in quiz order.  The record of a question has
`isCorrect = true` iff the first submitted answer carrying the question's id exists
and its `selectedAnswer` equals the question's `correctAnswer` exactly; it has
`isCorrect = false` when that first answer exists and selects something else.
`correct` counts the records with `isCorrect = true` and `wrong` counts all others.
For `Q1` correct `"A"`, `Q2` correct `"B"` and answers `[(Q1, "A"), (Q2, "C")]` this
gives `correct = 1`, `wrong = 1`, `score = 50`, and `Q2` has `isCorrect = false`,
`userAnswer = "C"`. -/
theorem submitQuiz_isCorrect_first_match :
    (∀ (env : Env) (st : State) (req : SubmitReq) (quiz : Quiz) (answers : List Answer),
      findQuizById st req.id = some quiz → req.answers = some answers →
      ∃ s, (submitQuiz env req st).1 =
          { status := 200, success := true, payload := Payload.scored s } ∧
        s.detailedResults.length = quiz.questions.length ∧
        (∀ (i : Nat) (q : Question), quiz.questions[i]? = some q →
          ∃ d : Detail, s.detailedResults[i]? = some d ∧ d.questionId = q._id ∧
            (d.isCorrect = some true ↔
              ∃ a, FirstAnswerFor answers q a ∧ a.selectedAnswer = some q.correctAnswer) ∧
            (∀ a, FirstAnswerFor answers q a → a.selectedAnswer ≠ some q.correctAnswer →
              d.isCorrect = some false)) ∧
        s.correct = s.detailedResults.countP (fun d => d.isCorrect == some true) ∧
        s.wrong = s.detailedResults.countP (fun d => d.isCorrect != some true)) ∧
    (scoredOf (submitQuiz acceptAll
        (submission "z2" (some [⟨some "Q1", some "A"⟩, ⟨some "Q2", some "C"⟩]))
        (storeOf [quizTwo])).1).map
      (fun s => (s.correct, s.wrong, s.score,
        s.detailedResults.map (fun d => (d.questionId, d.isCorrect, d.userAnswer))))
      = some (1, 1, F64.fin 50 0, [("Q1", some true, "A"), ("Q2", some false, "C")]) := by
  refine ⟨?_, by rfl⟩
  intro env st req quiz answers hq ha
  refine ⟨_, submitQuiz_response env st req quiz answers hq ha, by simp, ?_, ?_, ?_⟩
  · intro i q hi
    refine ⟨detailOf answers q, by simp [List.getElem?_map, hi], rfl, ?_, ?_⟩
    · simp only [detailOf, isCorrectOf, Option.map_eq_some', ← findAnswer_eq_some_iff]
      constructor
      · rintro ⟨a, ha1, ha2⟩
        exact ⟨a, ha1, by simpa using ha2⟩
      · rintro ⟨a, ha1, ha2⟩
        exact ⟨a, ha1, by simpa using ha2⟩
    · intro a hfirst hne
      rw [← findAnswer_eq_some_iff] at hfirst
      simp [detailOf, isCorrectOf, hfirst, hne]
  · simp [List.countP_map, Function.comp_def]
  · simp [List.countP_map, Function.comp_def]

/-- C2 (amended), at the store holding `quizTwo` and the answers of the scenario. -/
theorem submitQuiz_isCorrect_first_match_witness :
    ∃ s, (submitQuiz acceptAll
          (submission "z2" (some [⟨some "Q1", some "A"⟩, ⟨some "Q2", some "C"⟩]))
          (storeOf [quizTwo])).1 =
        { status := 200, success := true, payload := Payload.scored s } ∧
      s.detailedResults.length = 2 ∧ s.correct = 1 ∧ s.wrong = 1 := by
  obtain ⟨s, h1, h2, _, h4, h5⟩ := submitQuiz_isCorrect_first_match.1 acceptAll
    (storeOf [quizTwo])
    (submission "z2" (some [⟨some "Q1", some "A"⟩, ⟨some "Q2", some "C"⟩])) quizTwo
    [⟨some "Q1", some "A"⟩, ⟨some "Q2", some "C"⟩] (by decide) rfl
  refine ⟨s, h1, h2, ?_, ?_⟩
  · have h := submitQuiz_isCorrect_first_match.2
    rw [h1] at h
    simp [scoredOf] at h
    exact h.1
  · have h := submitQuiz_isCorrect_first_match.2
    rw [h1] at h
    simp [scoredOf] at h
    exact h.2.1

/-- C3 (as stated, refuted).  The answer `(Q1, "")` matches the id of `Q1`, yet the
record of `Q1` carries the placeholder `"Not answered"`, which is not the answer's
`selectedAnswer`; the same happens when the matching answer has no `selectedAnswer`. -/
theorem submitQuiz_userAnswer_counterexample :
    (detailsOf (submitQuiz acceptAll (submission "z1" (some [⟨some "Q1", some ""⟩]))
        (storeOf [quizOne])).1).map (fun d => (d.questionId, d.userAnswer))
      = [("Q1", "Not answered")] ∧
    (detailsOf (submitQuiz acceptAll (submission "z1" (some [⟨some "Q1", none⟩]))
        (storeOf [quizOne])).1).map (fun d => (d.questionId, d.userAnswer))
      = [("Q1", "Not answered")] ∧
    findAnswer [⟨some "Q1", some ""⟩] (mkQuestion "Q1" "A") = some ⟨some "Q1", some ""⟩ ∧
    ("" : String) ≠ "Not answered" := by
  decide

/-- C3 (amended).  For a stored quiz and a submitted answer list, the record of each
question has `userAnswer` equal to the `selectedAnswer` of the first submitted answer
carrying the question's id when that `selectedAnswer` is a non-empty string, and
equal to `"Not answered"` when no submitted answer carries the id or when the first
one that does has a missing or empty `selectedAnswer`. -/
theorem submitQuiz_userAnswer (env : Env) (st : State) (req : SubmitReq) (quiz : Quiz)
    (answers : List Answer) (hq : findQuizById st req.id = some quiz)
    (ha : req.answers = some answers) :
    ∃ s, (submitQuiz env req st).1 =
        { status := 200, success := true, payload := Payload.scored s } ∧
      ∀ (i : Nat) (q : Question), quiz.questions[i]? = some q →
        ∃ d : Detail, s.detailedResults[i]? = some d ∧ d.questionId = q._id ∧
          (∀ a v, FirstAnswerFor answers q a → a.selectedAnswer = some v → v ≠ "" →
            d.userAnswer = v) ∧
          (∀ a, FirstAnswerFor answers q a →
            a.selectedAnswer = none ∨ a.selectedAnswer = some "" →
            d.userAnswer = "Not answered") ∧
          ((∀ a ∈ answers, a.questionId ≠ some q._id) → d.userAnswer = "Not answered") := by
  refine ⟨_, submitQuiz_response env st req quiz answers hq ha, ?_⟩
  intro i q hi
  refine ⟨detailOf answers q, by simp [List.getElem?_map, hi], rfl, ?_, ?_, ?_⟩
  · intro a v hfirst hv hne
    rw [← findAnswer_eq_some_iff] at hfirst
    simp [detailOf, hfirst, hv, orDefault, hne]
  · intro a hfirst hv
    rw [← findAnswer_eq_some_iff] at hfirst
    rcases hv with hv | hv <;> simp [detailOf, hfirst, hv, orDefault]
  · intro hnone
    rw [← findAnswer_eq_none_iff] at hnone
    simp [detailOf, hnone, orDefault]

/-- C3 (amended), at the scenario: `Q2` answered `"C"` is reported as `"C"`. -/
theorem submitQuiz_userAnswer_witness :
    ∃ s, (submitQuiz acceptAll
          (submission "z2" (some [⟨some "Q1", some "A"⟩, ⟨some "Q2", some "C"⟩]))
          (storeOf [quizTwo])).1 =
        { status := 200, success := true, payload := Payload.scored s } ∧
      ∃ d : Detail, s.detailedResults[1]? = some d ∧ d.questionId = "Q2" ∧ d.userAnswer = "C" := by
  obtain ⟨s, h1, h2⟩ := submitQuiz_userAnswer acceptAll (storeOf [quizTwo])
    (submission "z2" (some [⟨some "Q1", some "A"⟩, ⟨some "Q2", some "C"⟩])) quizTwo
    [⟨some "Q1", some "A"⟩, ⟨some "Q2", some "C"⟩] (by decide) rfl
  obtain ⟨d, hd1, hd2, hd3, _⟩ := h2 1 (mkQuestion "Q2" "B") (by decide)
  refine ⟨s, h1, d, hd1, hd2, ?_⟩
  exact hd3 ⟨some "Q2", some "C"⟩ "C"
    ⟨[⟨some "Q1", some "A"⟩], [], rfl, by decide, rfl⟩ rfl (by decide)

/-! ## createQuiz: per-question validation -/

theorem truthy_eq_false_iff (a : Option String) :
    truthy a = false ↔ a = none ∨ a = some "" := by
  cases a with
  | none => simp [truthy]
  | some s => simp [truthy]

theorem truthy_of_ne (s : String) (h : s ≠ "") : truthy (some s) = true := by
  simp [truthy, h]

theorem invalidQuestion_iff (q : QuestionInput) : invalidQuestion q = true ↔ Defective q := by
  unfold invalidQuestion Defective
  simp only [Bool.or_eq_true, Bool.not_eq_true', truthy_eq_false_iff, decide_eq_true_eq,
    Option.isNone_iff_eq_none]
  constructor
  · rintro (((h | h) | h) | h)
    · exact Or.inl h
    · exact Or.inr (Or.inl (Or.inl h))
    · cases ho : q.options with
      | none => exact Or.inr (Or.inl (Or.inl rfl))
      | some os => exact Or.inr (Or.inl (Or.inr ⟨os, rfl, by simpa [ho] using h⟩))
    · exact Or.inr (Or.inr h)
  · rintro (h | (h | ⟨os, ho, hlen⟩) | h)
    · exact Or.inl (Or.inl (Or.inl h))
    · exact Or.inl (Or.inl (Or.inr h))
    · exact Or.inl (Or.inr (by simpa [ho] using hlen))
    · exact Or.inr h

/-- The loop returns at the first defective question. -/
theorem validateQuestions_first :
    ∀ (qs : List QuestionInput) (i : Nat), (∃ q ∈ qs, Defective q) →
      ∃ k : Nat, validateQuestions qs i = some (i + k) ∧
        (∃ q, qs[k]? = some q ∧ Defective q) ∧
        ∀ (j : Nat) (q : QuestionInput), j < k → qs[j]? = some q → ¬ Defective q := by
  intro qs
  induction qs with
  | nil => intro i h; simp at h
  | cons x xs ih =>
    intro i h
    by_cases hx : invalidQuestion x = true
    · refine ⟨0, by simp [validateQuestions, hx], ⟨x, by simp, (invalidQuestion_iff x).1 hx⟩, ?_⟩
      intro j q hj
      omega
    · have hxd : ¬ Defective x := fun hd => hx ((invalidQuestion_iff x).2 hd)
      have hrest : ∃ q ∈ xs, Defective q := by
        obtain ⟨q, hq, hd⟩ := h
        rcases List.mem_cons.1 hq with rfl | hq
        · exact absurd hd hxd
        · exact ⟨q, hq, hd⟩
      obtain ⟨k, hk1, ⟨q, hq1, hq2⟩, hk3⟩ := ih (i + 1) hrest
      refine ⟨k + 1, ?_, ⟨q, by simpa using hq1, hq2⟩, ?_⟩
      · simp only [validateQuestions, hx, Bool.false_eq_true, if_false, hk1]
        congr 1
        omega
      · intro j q' hj hq'
        cases j with
        | zero =>
          simp at hq'
          subst hq'
          exact hxd
        | succ j =>
          simp at hq'
          exact hk3 j q' (by omega) hq'

/-- C8.  A `createQuiz` request with non-empty title, technology and level and a
questions list holding at least one question that lacks question text, has fewer
than 2 options or lacks a correct answer is answered 400 with the message
`Question ` followed by the decimal numeral of `k + 1` followed by
` is invalid. Each question must have ...`, `k` being the 0-based index of the first
such question, and the store is left as it was.  In particular a first question with
exactly one option gives `Question 1 ...`, a second one `Question 2 ...` and an
eleventh one `Question 11 ...`. -/
theorem createQuiz_defective_question :
    (∀ (env : Env) (req : CreateQuizReq) (st : State) (title technology level : String)
        (qs : List QuestionInput),
      req.title = some title → title ≠ "" → req.technology = some technology →
      technology ≠ "" → req.level = some level → level ≠ "" → req.questions = some qs →
      (∃ q ∈ qs, Defective q) →
      ∃ k : Nat, (∃ q, qs[k]? = some q ∧ Defective q) ∧
        (∀ (j : Nat) (q : QuestionInput), j < k → qs[j]? = some q → ¬ Defective q) ∧
        createQuiz env req st =
          ({ status := 400, success := false,
             payload := Payload.message ("Question " ++ toString (k + 1) ++
               " is invalid. Each question must have a question text, at least 2 options, and a correct answer") },
           st)) ∧
    createQuiz acceptAll (quizRequest [oneOptionInput, goodInput]) (storeOf []) =
      ({ status := 400, success := false,
         payload := Payload.message
           "Question 1 is invalid. Each question must have a question text, at least 2 options, and a correct answer" },
       storeOf []) ∧
    createQuiz acceptAll (quizRequest [goodInput, oneOptionInput]) (storeOf []) =
      ({ status := 400, success := false,
         payload := Payload.message
           "Question 2 is invalid. Each question must have a question text, at least 2 options, and a correct answer" },
       storeOf []) ∧
    createQuiz acceptAll (quizRequest (List.replicate 10 goodInput ++ [oneOptionInput]))
        (storeOf []) =
      ({ status := 400, success := false,
         payload := Payload.message
           "Question 11 is invalid. Each question must have a question text, at least 2 options, and a correct answer" },
       storeOf []) := by
  refine ⟨?_, by decide, by decide, by decide⟩
  intro env req st title technology level qs ht hte hc hce hl hle hqs hdef
  obtain ⟨k, hk1, hk2, hk3⟩ := validateQuestions_first qs 0 hdef
  refine ⟨k, hk2, hk3, ?_⟩
  have hne : qs ≠ [] := by
    rintro rfl
    simp at hdef
  unfold createQuiz
  simp [ht, hc, hl, hqs, truthy_of_ne, hte, hce, hle, hne, hk1, failure, invalidQuestionMessage]

/-- C8, at the request whose third question has no correct answer and whose fourth
has exactly one option: the message names position 3. -/
theorem createQuiz_defective_question_witness :
    ∃ k : Nat,
      (∃ q, [goodInput, goodInput, { goodInput with correctAnswer := none },
          oneOptionInput][k]? = some q ∧ Defective q) ∧
      (∀ (j : Nat) (q : QuestionInput), j < k →
        [goodInput, goodInput, { goodInput with correctAnswer := none },
          oneOptionInput][j]? = some q → ¬ Defective q) ∧
      createQuiz acceptAll
          (quizRequest [goodInput, goodInput, { goodInput with correctAnswer := none },
            oneOptionInput]) (storeOf []) =
        ({ status := 400, success := false,
           payload := Payload.message ("Question " ++ toString (k + 1) ++
             " is invalid. Each question must have a question text, at least 2 options, and a correct answer") },
         storeOf []) ∧
      createQuiz acceptAll
          (quizRequest [goodInput, goodInput, { goodInput with correctAnswer := none },
            oneOptionInput]) (storeOf []) =
        ({ status := 400, success := false,
           payload := Payload.message
             "Question 3 is invalid. Each question must have a question text, at least 2 options, and a correct answer" },
         storeOf []) := by
  obtain ⟨k, h1, h2, h3⟩ := createQuiz_defective_question.1 acceptAll
    (quizRequest [goodInput, goodInput, { goodInput with correctAnswer := none },
      oneOptionInput])
    (storeOf []) "Basics" "React" "basic"
    [goodInput, goodInput, { goodInput with correctAnswer := none }, oneOptionInput]
    rfl (by decide) rfl (by decide) rfl (by decide) rfl
    ⟨oneOptionInput, by simp, Or.inr (Or.inl (Or.inr ⟨["A"], rfl, by decide⟩))⟩
  exact ⟨k, h1, h2, h3, by decide⟩

/-! ## createResult -/

theorem unauthorized_eq_true_iff (user : Option ReqUser) :
    unauthorized user = true ↔ callerId user = none ∨ callerId user = some "" := by
  unfold unauthorized
  cases user with
  | none => simp [callerId]
  | some u => simp [truthy_eq_false_iff]

theorem unauthorized_of_caller (user : Option ReqUser) (uid : String)
    (h : callerId user = some uid) (hne : uid ≠ "") : unauthorized user = false := by
  cases hu : unauthorized user with
  | false => rfl
  | true =>
    rcases (unauthorized_eq_true_iff user).1 hu with h1 | h1
    · rw [h] at h1; cases h1
    · rw [h] at h1; exact absurd (Option.some.inj h1) hne

/-- C9.  A `createResult` request without a caller identity (`req.user` missing, or
its `_id` missing or empty) is answered 401 `Not authorized`, whatever its body, and
the store is left as it was. -/
theorem createResult_unauthorized (env : Env) (req : CreateResultReq) (st : State)
    (h : callerId req.user = none ∨ callerId req.user = some "") :
    createResult env req st =
      ({ status := 401, success := false, payload := Payload.message "Not authorized" }, st) := by
  have hu := (unauthorized_eq_true_iff req.user).2 h
  unfold createResult
  simp [hu, failure]

/-- C9, at an otherwise valid request without `req.user`. -/
theorem createResult_unauthorized_witness :
    createResult acceptAll
        { resultRequest (some "Basics") (some 10) (some 7) none with user := none } resultStore
      = ({ status := 401, success := false, payload := Payload.message "Not authorized" },
         resultStore) :=
  createResult_unauthorized acceptAll
    { resultRequest (some "Basics") (some 10) (some 7) none with user := none } resultStore
    (Or.inl rfl)

/-- C4 (code defect, evaluated).  An authenticated request with the empty title `""`
is answered 400 and stores nothing.  With the blank title `" "` the guard `!title`
passes, since it runs before `String(title).trim()`: when the schema accepts the
document the answer is 201 and a Result with the trimmed title `""` is stored, and
when the schema rejects it the answer is 500.  In neither case is the status 400. -/
theorem createResult_blank_title :
    (createResult acceptAll (resultRequest (some "") (some 10) (some 7) none)
        (storeOf [])).1.status = 400 ∧
    jsTrim " " = "" ∧
    (createResult acceptAll (resultRequest (some " ") (some 10) (some 7) none)
        (storeOf [])).1.status = 201 ∧
    ((createResult acceptAll (resultRequest (some " ") (some 10) (some 7) none)
        (storeOf [])).2.results.map (fun r => r.title)) = [""] ∧
    (createResult rejectAll (resultRequest (some " ") (some 10) (some 7) none)
        (storeOf [])).1.status = 500 := by
  decide

/-- The guard `!title`: an authenticated request whose title is missing or empty is
answered 400 and the store is left as it was. -/
theorem createResult_missing_title (env : Env) (req : CreateResultReq) (st : State)
    (uid : String) (hu : callerId req.user = some uid) (hne : uid ≠ "")
    (ht : req.title = none ∨ req.title = some "") :
    (createResult env req st).1.status = 400 ∧ (createResult env req st).1.success = false ∧
      (createResult env req st).2 = st := by
  have hauth := unauthorized_of_caller req.user uid hu hne
  have htitle := (truthy_eq_false_iff req.title).2 ht
  unfold createResult
  simp only [hauth, htitle, Bool.false_eq_true, if_false, Bool.not_false, if_true]
  split <;> simp [failure]

/-- A stored Result document is the document saved, with `user` cast. -/
theorem resultToStore_some (env : Env) (doc stored : ResultDoc)
    (h : resultToStore env doc = some stored) :
    ∃ oid, env.objectId doc.user = some oid ∧ stored = { doc with user := oid } := by
  unfold resultToStore at h
  split at h
  · cases h
  · rename_i oid hoid
    split at h
    · exact ⟨oid, hoid, (Option.some.inj h).symm⟩
    · cases h

/-- The results `createResult` leaves in the store. -/
theorem createResult_results (env : Env) (req : CreateResultReq) (st : State) :
    (createResult env req st).2.results = st.results ∨
      ∃ oid, (createResult env req st).2.results =
        st.results ++ [{ resultPayload env req with user := oid }] := by
  unfold createResult
  split
  · exact Or.inl rfl
  · split
    · exact Or.inl rfl
    · split
      · exact Or.inl rfl
      · split
        · rename_i created hcreated
          obtain ⟨oid, _, rfl⟩ := resultToStore_some env _ _ hcreated
          exact Or.inr ⟨oid, rfl⟩
        · exact Or.inl rfl

/-- C6.  Take an authenticated `createResult` request whose caller id the ObjectId
constructor accepts, with technology, level and title non-empty and
`totalQuestions = t`, `correct = c` present, both of magnitude at most `2 ^ 53`, and
which the schema accepts.  The answer is 201 and exactly one Result is appended to
the store, with `totalQuestions = t` and `correct = c`.  Its `wrong` is the supplied
value `w` when one is supplied (of magnitude at most `2 ^ 53`), and `max 0 (t - c)`
when none is (and `t - c` is of magnitude at most `2 ^ 53`).  With `t = 10`, `c = 7`
and no `wrong` the stored `wrong` is 3. -/
theorem createResult_wrong :
    (∀ (env : Env) (req : CreateResultReq) (st : State)
        (uid oid title technology level : String) (t c : Int),
      callerId req.user = some uid → uid ≠ "" → env.objectId uid = some oid →
      req.title = some title → title ≠ "" →
      req.technology = some technology → technology ≠ "" → req.level = some level →
      level ≠ "" → req.totalQuestions = some t → req.correct = some c →
      ExactInt t → ExactInt c →
      env.resultValid { resultPayload env req with user := oid } = true →
      ∃ r : ResultDoc, (createResult env req st).1 =
          { status := 201, success := true, payload := Payload.result "Result Created" r } ∧
        (createResult env req st).2 = { st with results := st.results ++ [r] } ∧
        r.totalQuestions = Num.int t ∧ r.correct = Num.int c ∧
        (∀ w, req.wrong = some w → ExactInt w → r.wrong = Num.int w) ∧
        (req.wrong = none → ExactInt (t - c) → r.wrong = Num.int (max 0 (t - c)))) ∧
    (createResult acceptAll (resultRequest (some "Basics") (some 10) (some 7) none)
        (storeOf [])).2.results.map (fun r => (r.totalQuestions, r.correct, r.wrong))
      = [(Num.int 10, Num.int 7, Num.int 3)] := by
  refine ⟨?_, by decide⟩
  intro env req st uid oid title technology level t c hu hune hoid ht htne hte htene hl hlne
    htq hc hte1 hce1 hv
  have hauth := unauthorized_of_caller req.user uid hu hune
  have huser : (resultPayload env req).user = uid := by simp [resultPayload, hu]
  have hstore : resultToStore env (resultPayload env req)
      = some { resultPayload env req with user := oid } := by
    unfold resultToStore
    simp [huser, hoid, hv]
  refine ⟨{ resultPayload env req with user := oid }, ?_, ?_, ?_, ?_, ?_, ?_⟩
  · unfold createResult
    simp [hauth, ht, hte, hl, htq, hc, truthy_of_ne, htne, htene, hlne, hstore]
  · unfold createResult
    simp [hauth, ht, hte, hl, htq, hc, truthy_of_ne, htne, htene, hlne, hstore]
  · simp [resultPayload, htq, toNum_exact t hte1]
  · simp [resultPayload, hc, toNum_exact c hce1]
  · intro w hw hwe
    simp [resultPayload, computeWrong, hw, toNum_exact w hwe]
  · intro hw hd
    simp [resultPayload, computeWrong, hw, htq, hc, maxZero_sub_exact t c hte1 hce1 hd]

/-- C6, at a request that supplies `wrong = 5` next to `totalQuestions = 10` and
`correct = 7`: the stored `wrong` is 5. -/
theorem createResult_wrong_witness :
    ∃ r : ResultDoc,
      (createResult acceptAll (resultRequest (some "Basics") (some 10) (some 7) (some 5))
          (storeOf [])).2 = { storeOf [] with results := (storeOf []).results ++ [r] } ∧
        r.totalQuestions = Num.int 10 ∧ r.correct = Num.int 7 ∧ r.wrong = Num.int 5 := by
  obtain ⟨r, _, h2, h3, h4, h5, _⟩ := createResult_wrong.1 acceptAll
    (resultRequest (some "Basics") (some 10) (some 7) (some 5)) (storeOf [])
    userOne userOneId "Basics" "React" "basic" 10 7 rfl (by decide) (by decide) rfl
    (by decide) rfl (by decide) rfl (by decide) rfl rfl (by decide) (by decide) rfl
  exact ⟨r, h2, h3, h4, h5 5 rfl (by decide)⟩

/-! ## The `wrong` count of stored results -/

/-- Every question graded lands in exactly one of the two counters. -/
theorem forEachQuestion_total :
    ∀ (qs : List Question) (answers : Option (List Answer)) (t t1 : Tally),
      forEachQuestion qs answers t = some t1 →
      t1.correct + t1.wrong = t.correct + t.wrong + qs.length := by
  intro qs
  induction qs with
  | nil =>
    intro answers t t1 h
    simp only [forEachQuestion, Option.some.injEq] at h
    subst h
    simp
  | cons q qs ih =>
    intro answers t t1 h
    cases answers with
    | none => simp [forEachQuestion] at h
    | some as =>
      rw [forEachQuestion] at h
      have h2 := ih (some as) _ _ h
      rw [h2]
      unfold gradeQuestion
      by_cases hc : isCorrectOf (findAnswer as q) q = some true
      · simp [hc]; omega
      · simp [hc]; omega

/-- The results `submitQuiz` leaves in the store. -/
theorem submitQuiz_results (env : Env) (req : SubmitReq) (st : State) :
    ∃ new : List ResultDoc, (submitQuiz env req st).2.results = st.results ++ new ∧
      new.length ≤ 1 ∧
      ∀ r ∈ new, ∃ t c : Nat, c ≤ t ∧ r.totalQuestions = Num.int (Int.ofNat t) ∧
        r.correct = Num.int (Int.ofNat c) ∧
        r.wrong = Num.int (Int.ofNat t - Int.ofNat c) := by
  unfold submitQuiz
  split
  · exact ⟨[], by simp, by simp, by simp⟩
  · rename_i found hfound
    dsimp only
    split
    · exact ⟨[], by simp [saveQuiz], by simp, by simp⟩
    · rename_i t ht
      have htot := forEachQuestion_total _ _ _ _ ht
      simp only [Nat.zero_add] at htot
      split
      · unfold saveResultBestEffort
        split
        · rename_i stored hstored
          obtain ⟨oid, _, rfl⟩ := resultToStore_some env _ _ hstored
          refine ⟨[_], rfl, by simp, ?_⟩
          intro r hr
          simp only [List.mem_singleton] at hr
          subst hr
          refine ⟨found.questions.length, t.correct, by omega, rfl, rfl, ?_⟩
          simp only [Int.ofNat_eq_coe]
          congr 1
          omega
        · exact ⟨[], by simp [saveQuiz], by simp, by simp⟩
      · exact ⟨[], by simp [saveQuiz], by simp, by simp⟩

/-- The results `createResult` leaves in the store, with the counts of the request. -/
theorem createResult_results_counts (env : Env) (req : CreateResultReq) (st : State) :
    (createResult env req st).2.results = st.results ∨
      ∃ (oid : String) (t c : Int), req.totalQuestions = some t ∧ req.correct = some c ∧
        (createResult env req st).2.results =
          st.results ++ [{ resultPayload env req with user := oid }] := by
  rcases createResult_results env req st with h | ⟨oid, h⟩
  · exact Or.inl h
  · cases ht : req.totalQuestions with
    | none =>
      left
      unfold createResult
      split
      · rfl
      · simp [ht]
    | some t =>
      cases hc : req.correct with
      | none =>
        left
        unfold createResult
        split
        · rfl
        · simp [hc]
      | some c => exact Or.inr ⟨oid, t, c, rfl, rfl, h⟩

/-- C5 (as stated, refuted).  For `createResult` with `totalQuestions = 5`,
`correct = 7` and no `wrong`, the stored record has `wrong = 0`, while
`totalQuestions - correct` is `-2`. -/
theorem createResult_wrong_counterexample :
    (createResult acceptAll (resultRequest (some "Basics") (some 5) (some 7) none)
        (storeOf [])).2.results.map (fun r => (r.totalQuestions, r.correct, r.wrong))
      = [(Num.int 5, Num.int 7, Num.int 0)] ∧
    (5 : Int) - 7 = -2 ∧ Num.int 0 ≠ Num.int (-2) := by
  decide

/-- C5 (amended).  Take a `createResult` request without `wrong` whose
`totalQuestions`, `correct` and their difference are of magnitude at most `2 ^ 53`.
Every Result record it adds to the store has `wrong = max 0 (totalQuestions - correct)`,
which is `totalQuestions - correct` whenever `correct ≤ totalQuestions`.  Every Result
record that `submitQuiz` adds has `wrong = totalQuestions - correct`, with
`correct ≤ totalQuestions`.  Either handler adds at most one record and leaves the
earlier ones in place. -/
theorem stored_wrong_invariant :
    (∀ (env : Env) (req : CreateResultReq) (st : State), req.wrong = none →
      (∀ t c : Int, req.totalQuestions = some t → req.correct = some c →
        ExactInt t ∧ ExactInt c ∧ ExactInt (t - c)) →
      ∃ new : List ResultDoc, (createResult env req st).2.results = st.results ++ new ∧
        new.length ≤ 1 ∧
        ∀ r ∈ new, ∃ t c : Int, r.totalQuestions = Num.int t ∧ r.correct = Num.int c ∧
          r.wrong = Num.int (max 0 (t - c)) ∧ (c ≤ t → r.wrong = Num.int (t - c))) ∧
    (∀ (env : Env) (req : SubmitReq) (st : State),
      ∃ new : List ResultDoc, (submitQuiz env req st).2.results = st.results ++ new ∧
        new.length ≤ 1 ∧
        ∀ r ∈ new, ∃ t c : Nat, c ≤ t ∧ r.totalQuestions = Num.int (Int.ofNat t) ∧
          r.correct = Num.int (Int.ofNat c) ∧
          r.wrong = Num.int (Int.ofNat t - Int.ofNat c)) := by
  refine ⟨?_, submitQuiz_results⟩
  intro env req st hw hexact
  rcases createResult_results_counts env req st with h | ⟨oid, t, c, ht, hc, h⟩
  · exact ⟨[], by simp [h], by simp, by simp⟩
  · obtain ⟨het, hec, hed⟩ := hexact t c ht hc
    refine ⟨[{ resultPayload env req with user := oid }], h, by simp, ?_⟩
    intro r hr
    simp only [List.mem_singleton] at hr
    subst hr
    have hwrong : (resultPayload env req).wrong = Num.int (max 0 (t - c)) := by
      simp [resultPayload, computeWrong, hw, ht, hc, maxZero_sub_exact t c het hec hed]
    refine ⟨t, c, ?_, ?_, hwrong, fun hle => ?_⟩
    · simp [resultPayload, ht, toNum_exact t het]
    · simp [resultPayload, hc, toNum_exact c hec]
    · show (resultPayload env req).wrong = Num.int (t - c)
      rw [hwrong]
      congr 1
      omega

/-- C5 (amended), at a `createResult` request with `totalQuestions = 10`,
`correct = 7`, no `wrong`, and at the scenario submission made by the first user: the
records stored have `wrong = 3` and `wrong = 1`. -/
theorem stored_wrong_invariant_witness :
    (∃ new : List ResultDoc,
      (createResult acceptAll (resultRequest (some "Basics") (some 10) (some 7) none)
        (storeOf [])).2.results = (storeOf []).results ++ new ∧
      new.map (fun r => r.wrong) = [Num.int 3] ∧
      ∀ r ∈ new, ∃ t c : Int, r.totalQuestions = Num.int t ∧ r.correct = Num.int c ∧
        r.wrong = Num.int (max 0 (t - c)) ∧ (c ≤ t → r.wrong = Num.int (t - c))) ∧
    (∃ new : List ResultDoc,
      (submitQuiz acceptAll
        { submission "z2" (some [⟨some "Q1", some "A"⟩, ⟨some "Q2", some "C"⟩]) with
          user := caller } (storeOf [quizTwo])).2.results = (storeOf [quizTwo]).results ++ new ∧
      new.map (fun r => r.wrong) = [Num.int 1] ∧
      ∀ r ∈ new, ∃ t c : Nat, c ≤ t ∧ r.totalQuestions = Num.int (Int.ofNat t) ∧
        r.correct = Num.int (Int.ofNat c) ∧
        r.wrong = Num.int (Int.ofNat t - Int.ofNat c)) := by
  constructor
  · obtain ⟨new, h1, _, h3⟩ := stored_wrong_invariant.1 acceptAll
      (resultRequest (some "Basics") (some 10) (some 7) none) (storeOf []) rfl
      (by
        intro t c ht hc
        have ht1 : t = 10 := (Option.some.inj ht).symm
        have hc1 : c = 7 := (Option.some.inj hc).symm
        subst ht1
        subst hc1
        decide)
    refine ⟨new, h1, ?_, h3⟩
    have h : (createResult acceptAll (resultRequest (some "Basics") (some 10) (some 7) none)
        (storeOf [])).2.results.map (fun r => r.wrong) = [Num.int 3] := by decide
    rw [h1] at h
    simpa [storeOf] using h
  · obtain ⟨new, h1, _, h3⟩ := stored_wrong_invariant.2 acceptAll
      { submission "z2" (some [⟨some "Q1", some "A"⟩, ⟨some "Q2", some "C"⟩]) with
        user := caller } (storeOf [quizTwo])
    refine ⟨new, h1, ?_, h3⟩
    have h : (submitQuiz acceptAll
        { submission "z2" (some [⟨some "Q1", some "A"⟩, ⟨some "Q2", some "C"⟩]) with
          user := caller } (storeOf [quizTwo])).2.results.map (fun r => r.wrong)
        = [Num.int 1] := by
      decide
    rw [h1] at h
    simpa [storeOf] using h

/-! ## listResults -/

/-- C10 (as stated, refuted).  With `technology = ""`, which is neither absent nor a
spelling of `all`, the query carries no technology condition: both results of the
caller are returned, although none of them has technology `""`.  Besides, a caller
id that the ObjectId constructor rejects, such as `u1`, is answered 500. -/
theorem listResults_empty_filter_counterexample :
    listResults acceptAll { user := caller, technology := some "" } resultStore =
        { status := 200, success := true,
          payload := Payload.results
            [mkResult userOneId "Node" 3, mkResult userOneId "React" 1] } ∧
      resultStore.results.filter (fun r => r.user == userOneId && r.technology == "") = [] ∧
      "" ∉ ["all", "All", "aLl", "alL", "ALl", "AlL", "aLL", "ALL"] ∧
      (listResults acceptAll { user := some { _id := some "u1" }, technology := none }
        resultStore).status = 500 := by
  decide

/-- C10 (amended).  Take an authenticated `listResults` request whose caller id the
ObjectId constructor accepts.  It is answered 200 with a list ordered newest-created
first.  When the technology filter is absent, empty, or one of the eight spellings of
`all` in upper-case and lower-case letters, the list holds exactly the stored results
whose `user` is the caller's ObjectId; for every other technology value it holds
exactly those of them whose technology equals that value. -/
theorem listResults_query (env : Env) (req : ListResultsReq) (st : State) (uid oid : String)
    (hu : callerId req.user = some uid) (hne : uid ≠ "") (hoid : env.objectId uid = some oid) :
    ∃ items : List ResultDoc,
      listResults env req st =
        { status := 200, success := true, payload := Payload.results items } ∧
      List.Sorted (fun a b => b.createdAt ≤ a.createdAt) items ∧
      ((req.technology = none ∨ req.technology = some "" ∨
          ∃ t ∈ ["all", "All", "aLl", "alL", "ALl", "AlL", "aLL", "ALL"],
            req.technology = some t) →
        List.Perm items (st.results.filter (fun r => r.user == oid))) ∧
      (∀ t, req.technology = some t → t ≠ "" →
        t ∉ ["all", "All", "aLl", "alL", "ALl", "AlL", "aLL", "ALL"] →
        List.Perm items (st.results.filter (fun r => r.user == oid && r.technology == t))) := by
  have hauth := unauthorized_of_caller req.user uid hu hne
  refine ⟨(st.results.filter (resultQuery oid req.technology)).insertionSort newerFirst,
    ?_, ?_, ?_, ?_⟩
  · unfold listResults
    simp [hauth, hu, hoid]
  · exact List.sorted_insertionSort newerFirst _
  · intro h
    have hoff : technologyFilterOn req.technology = false := by
      unfold technologyFilterOn
      rcases h with h | h | ⟨t, hmem, h⟩
      · simp [h, truthy]
      · simp [h, truthy]
      · have hl : toLowerCase t = "all" := (toLowerCase_eq_all_iff t).2 hmem
        simp [h, hl]
    have hq : resultQuery oid req.technology = fun r => r.user == oid := by
      funext r
      simp [resultQuery, hoff]
    rw [hq]
    exact List.perm_insertionSort newerFirst _
  · intro t ht htne hnot
    have hl : toLowerCase t ≠ "all" := fun h => hnot ((toLowerCase_eq_all_iff t).1 h)
    have hon : technologyFilterOn (some t) = true := by
      unfold technologyFilterOn
      simp [truthy, htne, hl]
    have hq : resultQuery oid req.technology = fun r => r.user == oid && r.technology == t := by
      funext r
      simp [resultQuery, ht, hon]
    rw [hq]
    exact List.perm_insertionSort newerFirst _

/-- C10 (amended), at `resultStore` for the first user, whose id is written in upper
case, with filter `"aLl"`: both of the caller's results come back, the newer first. -/
theorem listResults_query_witness :
    ∃ items : List ResultDoc,
      listResults acceptAll { user := caller, technology := some "aLl" } resultStore =
        { status := 200, success := true, payload := Payload.results items } ∧
      List.Sorted (fun a b => b.createdAt ≤ a.createdAt) items ∧
      List.Perm items [mkResult userOneId "React" 1, mkResult userOneId "Node" 3] := by
  obtain ⟨items, h1, h2, h3, _⟩ := listResults_query acceptAll
    { user := caller, technology := some "aLl" } resultStore userOne userOneId rfl
    (by decide) (by decide)
  exact ⟨items, h1, h2, h3 (Or.inr (Or.inr ⟨"aLl", by decide, rfl⟩))⟩

end QuizApp
